import Mathlib

/-!
# Verification of the gominion broker client and dispatch subsystem

A shallow embedding, in Lean 4, of the gominion edge agent's core:
the Minion configuration model (`api/config.go`), the gRPC broker client
(`broker` package: `Send`, `initSinkStream`, `initRPCStream`,
`sendMinionHeaders`, `processRequest`, `sendResponse`), the command-line
entry point (`cmd` package, `rootHandler`) and the NX-OS telemetry sink
module (`sink/nxos-grpc.go`).

Go strings are Lean `String`s; Go `nil` pointers are `Option.none`;
Go `error` results are `Option String` (`none` = the Go `nil` error) or
`Except String` where a success value also flows.  Side effects on hot
paths (mutex operations, stream sends, Prometheus counter increments,
log lines) are recorded as an explicit event trace (`List Event`), so
"increments the counter exactly once" becomes a statement about the
number of matching events in the trace produced by one call.  Outcomes
of external calls (connection state, gRPC stream creation, stream sends)
enter as explicit oracle parameters, since the Go code branches on them.

A few functions of this repository are referenced by the sources at hand
(tests and callers) but their own bodies are not among them; each such
function is modelled from the specification and carries a doc comment
starting with `Modelled from the spec:`.
-/

set_option autoImplicit false

namespace Gominion

/-! ## Splitting strings on a separator character

`strings.Split(s, sep)` for a one-character separator, translated to
`List Char`: the string is cut around every occurrence of the separator,
empty sections included, and a nonempty input with `n` separators yields
`n + 1` sections.  (Go's `strings.Split` returns `[""]` on the empty
string, matching `splitOnChar sep [] = [[]]`.) -/

/-- Go `strings.Split(s, string(sep))` on the character list of `s`. -/
def splitOnChar (sep : Char) : List Char → List (List Char)
  | [] => [[]]
  | c :: rest =>
    if c = sep then [] :: splitOnChar sep rest
    else
      match splitOnChar sep rest with
      | [] => [[c]]
      | p :: ps => (c :: p) :: ps

/-- The suffix of `cs` after the last occurrence of `sep`
(all of `cs` when `sep` does not occur). -/
def afterLast (sep : Char) : List Char → List Char
  | [] => []
  | c :: rest =>
    if sep ∈ rest then afterLast sep rest
    else if c = sep then rest else c :: rest

/-! ## Configuration model (`api/config.go`) -/

/-- `MinionListener` represents a Minion Listener. -/
structure MinionListener where
  Name : String
  Parser : String
  Port : Int
deriving DecidableEq, Repr

/-- `GetParser` returns the simple class name for the parser implementation:

    if listener.Parser == "" { return "" }
    sections := strings.Split(listener.Parser, ".")
    return sections[len(sections)-1]
-/
def MinionListener.GetParser (listener : MinionListener) : String :=
  if listener.Parser = "" then ""
  else String.mk ((splitOnChar '.' listener.Parser.toList).getLastD [])

/-- `MinionConfig` represents basic Minion Configuration. -/
structure MinionConfig where
  ID : String
  Location : String
  BrokerURL : String
  BrokerType : String
  BrokerProperties : List (String × String)
  TrapPort : Int
  SyslogPort : Int
  NxosGrpcPort : Int
  Listeners : List MinionListener
deriving DecidableEq, Repr

/-- `GetListener` gets a given listener by name (first match, `nil` if none). -/
def MinionConfig.GetListener (cfg : MinionConfig) (name : String) : Option MinionListener :=
  cfg.Listeners.find? (fun listener => listener.Name == name)

/-- `IsValid` returns an error if the configuration is not valid;
`none` is the Go `nil` error.  It checks that ID, Location and BrokerURL
are non-empty; it does not inspect `BrokerType`. -/
def MinionConfig.IsValid (cfg : MinionConfig) : Option String :=
  if cfg.ID = "" then some "Minion ID required"
  else if cfg.Location = "" then some "Location required"
  else if cfg.BrokerURL = "" then some "Broker URL required"
  else none

/-- Modelled from the spec: `GetListenerByParser(p)` is referenced by the
test suite and by the NX-OS sink module but its body is not among the
sources at hand; per §4.7 and §8 it "matches the final dotted segment of
the configured parser", i.e. the first listener whose `GetParser` equals
the given name. -/
def MinionConfig.GetListenerByParser (cfg : MinionConfig) (p : String) : Option MinionListener :=
  cfg.Listeners.find? (fun listener => listener.GetParser == p)

/-! ## Wire messages (`protobuf/ipc`)

Payload bytes are `List Nat`; the broker treats them as opaque. -/

structure SinkMessage where
  MessageId : String
  SystemId : String
  Location : String
  ModuleId : String
  Content : List Nat
deriving DecidableEq, Repr

structure RpcRequestProto where
  RpcId : String
  SystemId : String
  ModuleId : String
  Location : String
  /-- Absolute deadline, epoch milliseconds (`uint64` on the wire). -/
  ExpirationTime : Nat
  RpcContent : List Nat
deriving DecidableEq, Repr

structure RpcResponseProto where
  RpcId : String
  SystemId : String
  ModuleId : String
  Location : String
  RpcContent : List Nat
deriving DecidableEq, Repr

/-- An RPC module (`api.RPCModule`): `Execute` returns the response, `none`
being the Go `nil` response. -/
structure RPCModule where
  GetID : String
  Execute : RpcRequestProto → Option RpcResponseProto

/-- The process-wide RPC module registry (`api.GetRPCModule`): a read-only
mapping from module ID to module, populated at init time. -/
def RPCRegistry : Type := String → Option RPCModule

/-! ## Observable events of the gRPC broker client

Every externally visible side effect of one call is recorded in order:
mutex operations, stream sends, Prometheus counter increments (with their
`(SystemId, ModuleId)` labels), log lines, closes.  `nilFieldRead` marks a
Go nil-pointer dereference (a runtime panic): the Go code read a field of
a `nil` `*ipc.RpcRequestProto`. -/
inductive Event where
  | lockSink | unlockSink | lockRpc | unlockRpc
  | closeSendSink | closeSendRpc | connClosed | stopModules | traceCloserClosed
  /-- `cli.initSinkStream()` was entered from `Send`. -/
  | initSinkAttempt
  /-- `cli.onms.SinkStreaming(ctx)` was invoked. -/
  | sinkStreamingCall
  | logWarnSinkRestarted
  /-- `cli.sinkStream.Send(msg)` was invoked. -/
  | streamSendSink (msg : SinkMessage)
  /-- `cli.rpcStream.Send(res)` was invoked (header or RPC response). -/
  | streamSendRpc (res : RpcResponseProto)
  | incSinkSucceeded (systemId moduleId : String)
  | incSinkFailed (systemId moduleId : String)
  | incRecvSucceeded (systemId moduleId : String)
  | incRecvFailed (systemId moduleId : String)
  | incProcSucceeded (systemId moduleId : String)
  | incProcFailed (systemId moduleId : String)
  | incResSentSucceeded (systemId moduleId : String)
  | incResSentFailed (systemId moduleId : String)
  /-- `module.Execute(request)` was invoked for (ModuleId, RpcId). -/
  | executeInvoked (moduleId rpcId : String)
  /-- `cli.sendResponse(response)` was entered. -/
  | sendResponseCalled (res : RpcResponseProto)
  /-- `log.Debugf("Received RPC request with ID %s for module %s at location %s", ...)`. -/
  | logRequestReceived (rpcId moduleId location : String)
  | logNoModule (moduleId rpcId : String)
  | logRecvError
  | logTerminating
  | logHeaderSendError
  | logSendingHeaders
  | sleepOneSecond
  | logRpcRestarted
  /-- Read of `request.SystemId` / `request.ModuleId` through a nil pointer:
  a Go runtime panic. -/
  | nilFieldRead
deriving DecidableEq, Repr

/-- Number of events in a trace satisfying `p`. -/
def countEvents (p : Event → Bool) (trace : List Event) : Nat :=
  (trace.filter p).length

def isSinkSucceeded : Event → Bool
  | .incSinkSucceeded _ _ => true
  | _ => false

def isSinkFailed : Event → Bool
  | .incSinkFailed _ _ => true
  | _ => false

def isInitSinkAttempt : Event → Bool
  | .initSinkAttempt => true
  | _ => false

def isExecuteInvoked : Event → Bool
  | .executeInvoked _ _ => true
  | _ => false

def isRecvFailed : Event → Bool
  | .incRecvFailed _ _ => true
  | _ => false

/-! ## The gRPC broker client (`broker` package) -/

/-- A Go error from a stream send: `io.EOF` or any other error. -/
inductive GoErr where
  | eof
  | other (msg : String)
deriving DecidableEq, Repr

/-- Oracle for the external outcomes one `Send` call can observe. -/
structure SendEnv where
  /-- `cli.sinkStream != nil` on entry. -/
  hasSinkStream : Bool
  /-- `cli.conn.GetState() == connectivity.Ready`. -/
  connReady : Bool
  /-- Outcome of `cli.onms.SinkStreaming(ctx)` during a re-initialization. -/
  sinkStreamingResult : Except String Unit
  /-- Outcome of `cli.sinkStream.Send(msg)`; `none` is the `nil` error. -/
  streamSendErr : Option GoErr
deriving Repr

/-- `initSinkStream` (broker): under the Sink mutex, half-close any existing
Sink stream and open a new one; returns the wrapped error on failure. -/
def initSinkStream (hadStream : Bool) (result : Except String Unit) :
    List Event × Option String :=
  ([Event.lockSink] ++ (if hadStream then [Event.closeSendSink] else [])
     ++ [Event.sinkStreamingCall, Event.unlockSink],
   match result with
   | .error e => some ("cannot initialize Sink API Stream: " ++ e)
   | .ok _ => none)

/-- The unconditional tail of `Send`: lock, `sinkStream.Send(msg)`, unlock,
then increment exactly one delivery counter and build the result
(`io.EOF` is rewritten to "server unreachable"). -/
def sendOnStream (env : SendEnv) (msg : SinkMessage) : List Event × Option String :=
  let prefixEvents := [Event.lockSink, Event.streamSendSink msg, Event.unlockSink]
  match env.streamSendErr with
  | none => (prefixEvents ++ [Event.incSinkSucceeded msg.SystemId msg.ModuleId], none)
  | some GoErr.eof =>
      (prefixEvents ++ [Event.incSinkFailed msg.SystemId msg.ModuleId],
       some "server unreachable")
  | some (GoErr.other e) =>
      (prefixEvents ++ [Event.incSinkFailed msg.SystemId msg.ModuleId], some e)

/-- `GrpcClient.Send`: when the Sink stream is absent or the connection is
not Ready, try exactly one `initSinkStream`; on its failure return that
error; otherwise send on the stream under the Sink mutex. -/
def GrpcClient.Send (env : SendEnv) (msg : SinkMessage) : List Event × Option String :=
  if env.hasSinkStream = false ∨ env.connReady = false then
    let (initEvents, initErr) := initSinkStream env.hasSinkStream env.sinkStreamingResult
    match initErr with
    | some e => (Event.initSinkAttempt :: initEvents, some e)
    | none =>
        let (sendEvents, res) := sendOnStream env msg
        (Event.initSinkAttempt :: initEvents ++ [Event.logWarnSinkRestarted] ++ sendEvents, res)
  else sendOnStream env msg

/-- `GrpcClient.Stop`: stop the modules, half-close both streams, close the
connection and the trace closer. -/
def GrpcClient.Stop : List Event :=
  [Event.stopModules, Event.closeSendRpc, Event.closeSendSink,
   Event.connClosed, Event.traceCloserClosed]

/-- Oracle for the external outcomes a write on the RPC stream can observe. -/
structure RpcSendEnv where
  /-- `cli.rpcStream != nil`. -/
  hasRpcStream : Bool
  /-- `cli.conn.GetState() == connectivity.Ready`. -/
  connReady : Bool
  /-- Outcome of `cli.rpcStream.Send(response)`; `none` is the `nil` error. -/
  rpcSendErr : Option String
deriving Repr

/-- `sendResponse`: requires a live RPC stream and a Ready connection;
serializes on the RPC mutex; increments exactly one of the
`rpc_res_sent` counters. -/
def sendResponse (env : RpcSendEnv) (response : RpcResponseProto) :
    List Event × Option String :=
  if env.hasRpcStream = true ∧ env.connReady = true then
    match env.rpcSendErr with
    | none =>
        ([Event.sendResponseCalled response, Event.lockRpc, Event.streamSendRpc response,
          Event.unlockRpc,
          Event.incResSentSucceeded response.SystemId response.ModuleId], none)
    | some e =>
        ([Event.sendResponseCalled response, Event.lockRpc, Event.streamSendRpc response,
          Event.unlockRpc,
          Event.incResSentFailed response.SystemId response.ModuleId],
         some ("cannot send RPC response for module " ++ response.ModuleId
           ++ " with ID " ++ response.RpcId ++ ": " ++ e))
  else
    ([Event.sendResponseCalled response,
      Event.incResSentFailed response.SystemId response.ModuleId],
     some ("cannot connect to the server, ignoring RPC request for module "
       ++ response.ModuleId ++ " with ID " ++ response.RpcId))

/-- `processRequest`: look the RPC module up by `request.ModuleId`; when
registered, a worker goroutine calls `Execute` — a non-nil response
increments the processed-succeeded counter and goes to `sendResponse`, a
nil response increments the processed-failed counter; when not
registered, log and drop.  There is no check of `request.ExpirationTime`.
The worker's events are inlined into the trace. -/
def processRequest (registry : RPCRegistry) (env : RpcSendEnv)
    (request : RpcRequestProto) : List Event :=
  Event.logRequestReceived request.RpcId request.ModuleId request.Location ::
  match registry request.ModuleId with
  | some module =>
    Event.executeInvoked request.ModuleId request.RpcId ::
    match module.Execute request with
    | some response =>
        Event.incProcSucceeded request.SystemId request.ModuleId ::
        (sendResponse env response).1
    | none => [Event.incProcFailed request.SystemId request.ModuleId]
  | none => [Event.logNoModule request.ModuleId request.RpcId]

/-- Modelled from the spec: `MinionConfig.GetHeaderResponse` is called by
`sendMinionHeaders` but its body is not among the sources at hand; per
§4.4 the Minion header is a message with "empty RpcId, the agent's
SystemId and Location". -/
def MinionConfig.GetHeaderResponse (cfg : MinionConfig) : RpcResponseProto :=
  { RpcId := "", SystemId := cfg.ID, ModuleId := "", Location := cfg.Location,
    RpcContent := [] }

/-- `sendMinionHeaders`: send the Minion header on the RPC stream under the
RPC mutex; a send error is only logged. -/
def sendMinionHeaders (cfg : MinionConfig) (headerSendErr : Option String) : List Event :=
  [Event.logSendingHeaders, Event.lockRpc, Event.streamSendRpc cfg.GetHeaderResponse]
    ++ (match headerSendErr with | some _ => [Event.logHeaderSendError] | none => [])
    ++ [Event.unlockRpc]

/-- Outcome of one `cli.rpcStream.Recv()` call.  The generated gRPC client
stub returns `(nil, err)` whenever `RecvMsg` fails, so in the two error
constructors the returned request pointer is `nil`. -/
inductive RecvResult where
  | ok (request : RpcRequestProto)
  /-- `(nil, io.EOF)`. -/
  | eofErr
  /-- `(nil, err)` with `err != io.EOF`; `unavailable` records whether
  `status.FromError(err).Code() == codes.Unavailable`. -/
  | err (unavailable : Bool)
deriving Repr

/-- One iteration's observations in the RPC receive loop. -/
structure LoopStep where
  /-- `cli.rpcStream != nil && cli.conn.GetState() == connectivity.Ready`
  at the top of the iteration. -/
  streamReady : Bool
  recv : RecvResult
deriving Repr

/-- The `for` loop of the goroutine spawned by `initRPCStream`, driven by
the finite oracle `steps` (an exhausted oracle models a loop still
blocked in `Recv`).  The error branch reads `request.SystemId` and
`request.ModuleId`, but on that branch `request` is the `nil` pointer
returned by `Recv`; the read is a runtime panic (`nilFieldRead`) that
kills the process, so the trace ends there. -/
def rpcLoop (registry : RPCRegistry) (env : RpcSendEnv) :
    List LoopStep → List Event
  | [] => []
  | step :: rest =>
    if step.streamReady = false then [Event.logTerminating]
    else
      match step.recv with
      | RecvResult.ok request =>
          processRequest registry env request
            ++ [Event.incRecvSucceeded request.SystemId request.ModuleId]
            ++ rpcLoop registry env rest
      | RecvResult.eofErr => [Event.logTerminating]
      | RecvResult.err unavailable =>
          (if unavailable then [] else [Event.logRecvError]) ++ [Event.nilFieldRead]

/-- The goroutine spawned by every successful `initRPCStream` call: it
first runs `sendMinionHeaders`, then enters the receive loop. -/
def rpcHandlerGo (cfg : MinionConfig) (registry : RPCRegistry) (env : RpcSendEnv)
    (headerSendErr : Option String) (steps : List LoopStep) : List Event :=
  sendMinionHeaders cfg headerSendErr ++ rpcLoop registry env steps

/-- The RPC stream supervisor goroutine, after the stream's context is
done: it calls `initRPCStream` every second until one call succeeds;
the successful call spawns a fresh `rpcHandlerGo`. -/
def rpcSupervisorRestart (cfg : MinionConfig) (registry : RPCRegistry) (env : RpcSendEnv)
    (failedAttempts : Nat) (headerSendErr : Option String) (steps : List LoopStep) :
    List Event :=
  List.replicate failedAttempts Event.sleepOneSecond
    ++ Event.logRpcRestarted :: rpcHandlerGo cfg registry env headerSendErr steps

/-! ## Listener flags and the command-line entry point (`cmd` package) -/

/-- Decimal digit parsing of a port field (Go `strconv.Atoi`, restricted to
the non-negative numerals used in listener flags). -/
def parseNatDigits (cs : List Char) : Option Nat :=
  if cs = [] then none
  else
    cs.foldl
      (fun acc c =>
        match acc with
        | none => none
        | some n => if c.isDigit then some (n * 10 + (c.toNat - 48)) else none)
      (some 0)

/-- Modelled from the spec: the per-entry parse in `ParseListeners` is not
among the sources at hand; per §6 an entry has the form `Name,Port,Parser`
and "malformed entries (fewer than three fields) are rejected per-entry". -/
def parseListenerEntry (entry : String) : Option MinionListener :=
  let parts := splitOnChar ',' entry.toList
  if parts.length < 3 then none
  else
    some { Name := String.mk (parts.getD 0 [])
           Port := Int.ofNat ((parseNatDigits (parts.getD 1 [])).getD 0)
           Parser := String.mk (parts.getD 2 []) }

/-- Modelled from the spec: `MinionConfig.ParseListeners` is called by
`rootHandler` and the test suite but its body is not among the sources at
hand; per §6 and test scenario 2, each well-formed entry is appended to
`Listeners`, each malformed entry (fewer than three fields) yields a
per-entry error only, and the call reports no overall fatal error, so
startup of the well-formed entries is not aborted.  Result: the updated
config, the list of rejected entries (the per-entry errors), and the
overall error (always `none`). -/
def MinionConfig.ParseListeners (cfg : MinionConfig) (entries : List String) :
    MinionConfig × List String × Option String :=
  ({ cfg with Listeners := cfg.Listeners ++ entries.filterMap parseListenerEntry },
   entries.filter (fun e => (splitOnChar ',' e.toList).length < 3),
   none)

/-- Modelled from the spec: `broker.GetBroker` (called by `rootHandler`,
`nil` for an unknown type) is not among the sources at hand; per §2/§4
the two transports are the streaming-session gRPC transport (`"grpc"`,
the default in `cmd`) and the pubsub transport (`"kafka"`). -/
def knownBrokerType (t : String) : Bool :=
  t == "grpc" || t == "kafka"

/-- How far `rootHandler` gets before blocking on the interrupt signal. -/
inductive StartupOutcome where
  | fatalInvalidConfig (e : String)
  | fatalInvalidListeners (e : String)
  | fatalNoBroker
  | started
deriving DecidableEq, Repr

/-- `rootHandler` (cmd package) up to `client.Start`: validate the config
(fatal on error), parse the listener flags (fatal only on an overall
error), resolve the broker implementation from `BrokerType` (fatal when
`GetBroker` returns `nil`). -/
def rootHandler (cfg : MinionConfig) (listenerFlags : List String) :
    StartupOutcome × MinionConfig :=
  match cfg.IsValid with
  | some e => (StartupOutcome.fatalInvalidConfig e, cfg)
  | none =>
    match cfg.ParseListeners listenerFlags with
    | (cfg2, _, some e) => (StartupOutcome.fatalInvalidListeners e, cfg2)
    | (cfg2, _, none) =>
      if knownBrokerType cfg2.BrokerType then (StartupOutcome.started, cfg2)
      else (StartupOutcome.fatalNoBroker, cfg2)

/-! ## The NX-OS telemetry sink module (`sink/nxos-grpc.go`) -/

/-- Observable outcome of `NxosGrpcModule.Start`. -/
structure NxosStartOutcome where
  /-- `log.Warnf("NX-OS Telemetry Module disabled")` was emitted. -/
  warnedDisabled : Bool
  /-- A TCP listener was opened and a gRPC server spawned. -/
  serverStarted : Bool
  /-- The returned Go error (`none` = `nil`). -/
  result : Option String
deriving DecidableEq, Repr

/-- `NxosGrpcModule.Start`: when no listener's parser matches
`"NxosGrpcParser"`, or the matching listener's port is 0, warn and return
`nil` without starting anything; otherwise start the TCP listener
(outcome `listenResult`) and serve in a goroutine. -/
def NxosGrpcModule.Start (cfg : MinionConfig) (listenResult : Except String Unit) :
    NxosStartOutcome :=
  match cfg.GetListenerByParser "NxosGrpcParser" with
  | none => { warnedDisabled := true, serverStarted := false, result := none }
  | some listener =>
    if listener.Port = 0 then
      { warnedDisabled := true, serverStarted := false, result := none }
    else
      match listenResult with
      | Except.error e =>
          { warnedDisabled := false, serverStarted := false,
            result := some ("Error cannot start TCP listener: " ++ e) }
      | Except.ok _ =>
          { warnedDisabled := false, serverStarted := true, result := none }

/-! ## Trace predicates and concrete instances -/

def isProcSucceeded : Event → Bool
  | Event.incProcSucceeded _ _ => true
  | _ => false

def isProcFailed : Event → Bool
  | Event.incProcFailed _ _ => true
  | _ => false

/-- Any of the four failure counters of the metrics surface. -/
def isFailureCounter : Event → Bool
  | Event.incSinkFailed _ _ => true
  | Event.incRecvFailed _ _ => true
  | Event.incProcFailed _ _ => true
  | Event.incResSentFailed _ _ => true
  | _ => false

def isLogRequestReceived : Event → Bool
  | Event.logRequestReceived _ _ _ => true
  | _ => false

/-- In `trace`, some send of the Minion header of `cfg` precedes every
request-processing event. -/
def headerFirst (cfg : MinionConfig) (trace : List Event) : Prop :=
  ∀ j rpcId moduleId location,
    trace.get? j = some (Event.logRequestReceived rpcId moduleId location) →
    ∃ i, i < j ∧ trace.get? i = some (Event.streamSendRpc cfg.GetHeaderResponse)

/-- An "Echo" RPC module whose `Execute` returns the payload reversed
(test scenario 4 of the spec). -/
def echoModule : RPCModule :=
  { GetID := "Echo"
    Execute := fun request =>
      some { RpcId := request.RpcId, SystemId := request.SystemId,
             ModuleId := request.ModuleId, Location := request.Location,
             RpcContent := request.RpcContent.reverse } }

/-- A registry holding only the Echo module. -/
def echoRegistry : RPCRegistry :=
  fun moduleId => if moduleId = "Echo" then some echoModule else none

/-- A healthy RPC stream: present, Ready connection, sends succeed. -/
def readyRpcEnv : RpcSendEnv :=
  { hasRpcStream := true, connReady := true, rpcSendErr := none }

/-- A request whose Expiration deadline (epoch ms 1000) has already passed
at a receive time of epoch ms 10000; payload "hello". -/
def expiredRequest : RpcRequestProto :=
  { RpcId := "r1", SystemId := "go-minion1", ModuleId := "Echo", Location := "Test",
    ExpirationTime := 1000, RpcContent := [104, 101, 108, 108, 111] }

/-- The Echo response to `expiredRequest`: payload "olleh". -/
def expiredEchoResponse : RpcResponseProto :=
  { RpcId := "r1", SystemId := "go-minion1", ModuleId := "Echo", Location := "Test",
    RpcContent := [111, 108, 108, 101, 104] }

/-- A config whose identity fields are all non-empty but whose BrokerType
resolves to no known transport. -/
def bogusBrokerConfig : MinionConfig :=
  { ID := "go-minion1", Location := "Test", BrokerURL := "10.0.0.100:8990",
    BrokerType := "bogus", BrokerProperties := [], TrapPort := 1162,
    SyslogPort := 1514, NxosGrpcPort := 0, Listeners := [] }

/-- The configuration of `TestConfiguration` (api/config_test.go), as far
as the model carries it. -/
def testConfig : MinionConfig :=
  { ID := "go-minion1", Location := "Test", BrokerURL := "10.0.0.100:8990",
    BrokerType := "grpc", BrokerProperties := [("tls-enabled", "true")],
    TrapPort := 11162, SyslogPort := 11514, NxosGrpcPort := 0,
    Listeners := [{ Name := "Netflow-5", Parser := "Netflow5UdpParser", Port := 18877 },
                  { Name := "Netflow-9", Parser := "Netflow9UdpParser", Port := 14729 }] }

/-- The listener flag entries of test scenario 2. -/
def testListenerFlags : List String :=
  ["Graphite,12003,ForwardParser", "NXOS,50000,NxosGrpcParser", "Wrong1,1000", "Wrong2,1001"]

/-- A config whose only NXOS listener has port 0. -/
def nxosPortZeroConfig : MinionConfig :=
  { testConfig with Listeners := [{ Name := "NXOS", Parser := "NxosGrpcParser", Port := 0 }] }

/-- A `Send` environment where the Sink stream is absent and
re-initialization fails. -/
def sinkInitFailEnv : SendEnv :=
  { hasSinkStream := false, connReady := false,
    sinkStreamingResult := Except.error "dial refused", streamSendErr := none }

/-- A healthy Sink stream: present, Ready connection, sends succeed. -/
def readySinkEnv : SendEnv :=
  { hasSinkStream := true, connReady := true,
    sinkStreamingResult := Except.ok (), streamSendErr := none }

/-- A sample Sink message. -/
def sampleSinkMessage : SinkMessage :=
  { MessageId := "m1", SystemId := "go-minion1", Location := "Test",
    ModuleId := "Heartbeat", Content := [1, 2, 3] }

/-! ## Lemmas about separator splitting -/

theorem splitOnChar_ne_nil (sep : Char) (cs : List Char) : splitOnChar sep cs ≠ [] := by
  induction cs with
  | nil => simp [splitOnChar]
  | cons c rest ih =>
    by_cases h : c = sep
    · simp [splitOnChar, h]
    · simp only [splitOnChar, if_neg h]
      cases hs : splitOnChar sep rest with
      | nil => exact absurd hs ih
      | cons p ps => simp

theorem afterLast_of_not_mem (sep : Char) (cs : List Char) (h : sep ∉ cs) :
    afterLast sep cs = cs := by
  cases cs with
  | nil => rfl
  | cons c rest =>
    have hc : c ≠ sep := fun hc => h (hc ▸ List.mem_cons_self c rest)
    have hr : sep ∉ rest := fun hr => h (List.mem_cons_of_mem c hr)
    simp [afterLast, hr, hc]

theorem splitOnChar_of_not_mem (sep : Char) (cs : List Char) (h : sep ∉ cs) :
    splitOnChar sep cs = [cs] := by
  induction cs with
  | nil => rfl
  | cons c rest ih =>
    have hc : c ≠ sep := fun hc => h (hc ▸ List.mem_cons_self c rest)
    have hr : sep ∉ rest := fun hr => h (List.mem_cons_of_mem c hr)
    simp [splitOnChar, hc, ih hr]

theorem splitOnChar_tail_ne_nil_of_mem (sep : Char) (cs : List Char) (h : sep ∈ cs) :
    ∃ p ps, splitOnChar sep cs = p :: ps ∧ ps ≠ [] := by
  induction cs with
  | nil => cases h
  | cons c rest ih =>
    by_cases hc : c = sep
    · refine ⟨[], splitOnChar sep rest, by simp [splitOnChar, hc], splitOnChar_ne_nil sep rest⟩
    · have hr : sep ∈ rest := by
        cases List.mem_cons.mp h with
        | inl h0 => exact absurd h0.symm hc
        | inr h0 => exact h0
      obtain ⟨p, ps, hsplit, hps⟩ := ih hr
      exact ⟨c :: p, ps, by simp [splitOnChar, hc, hsplit], hps⟩

/-- The last section produced by `splitOnChar` is exactly the suffix after
the last separator. -/
theorem getLastD_splitOnChar (sep : Char) (cs : List Char) :
    (splitOnChar sep cs).getLastD [] = afterLast sep cs := by
  induction cs with
  | nil => rfl
  | cons c rest ih =>
    by_cases hc : c = sep
    · have h1 : splitOnChar sep (c :: rest) = [] :: splitOnChar sep rest := by
        simp [splitOnChar, hc]
      rw [h1]
      cases hs : splitOnChar sep rest with
      | nil => exact absurd hs (splitOnChar_ne_nil sep rest)
      | cons p ps =>
        have h2 : (([] : List Char) :: p :: ps).getLastD [] = (p :: ps).getLastD [] := by
          simp [List.getLastD_cons]
        rw [h2, ← hs, ih]
        by_cases hmem : sep ∈ rest
        · simp [afterLast, hmem, hc]
        · simp [afterLast, hmem, hc, afterLast_of_not_mem sep rest hmem]
    · by_cases hmem : sep ∈ rest
      · obtain ⟨p, ps, hsplit, hps⟩ := splitOnChar_tail_ne_nil_of_mem sep rest hmem
        have h1 : splitOnChar sep (c :: rest) = (c :: p) :: ps := by
          simp [splitOnChar, hc, hsplit]
        rw [h1]
        cases ps with
        | nil => exact absurd rfl hps
        | cons q qs =>
          have h2 : ((c :: p) :: q :: qs).getLastD [] = (q :: qs).getLastD [] := by
            simp [List.getLastD_cons]
          have h3 : (splitOnChar sep rest).getLastD [] = (q :: qs).getLastD [] := by
            rw [hsplit]; simp [List.getLastD_cons]
          rw [h2, ← h3, ih]
          simp [afterLast, hmem]
      · have h1 : splitOnChar sep (c :: rest) = [c :: rest] := by
          simp [splitOnChar, hc, splitOnChar_of_not_mem sep rest hmem]
        rw [h1]
        simp [afterLast, hmem, hc]

theorem mk_toList (s : String) : String.mk s.toList = s := by
  cases s with
  | mk data => rfl

/-! ## C7: GetParser returns the final dot-separated segment -/

/-- **C7**: for every listener, `GetParser` returns the final dot-separated
segment of its `Parser` string — the suffix after the last dot — which is
the whole string when `Parser` contains no dot and the empty string when
`Parser` is empty.  `GetListenerByParser` (listener-to-module dispatch)
compares exactly this value with the module ID. -/
theorem c7_getParser_final_segment (listener : MinionListener) :
    listener.GetParser = String.mk (afterLast '.' listener.Parser.toList)
    ∧ ('.' ∉ listener.Parser.toList → listener.GetParser = listener.Parser)
    ∧ (listener.Parser = "" → listener.GetParser = "") := by
  have h1 : listener.GetParser = String.mk (afterLast '.' listener.Parser.toList) := by
    unfold MinionListener.GetParser
    by_cases h : listener.Parser = ""
    · rw [if_pos h, h]
      rfl
    · rw [if_neg h, getLastD_splitOnChar]
  refine ⟨h1, ?_, ?_⟩
  · intro hnd
    rw [h1, afterLast_of_not_mem _ _ hnd, mk_toList]
  · intro h
    unfold MinionListener.GetParser
    rw [if_pos h]

/-- C7 witness: a dot-free parser name comes back whole. -/
theorem c7_witness :
    ({ Name := "Graphite", Parser := "ForwardParser", Port := 12003 } : MinionListener).GetParser
      = "ForwardParser" :=
  (c7_getParser_final_segment
    { Name := "Graphite", Parser := "ForwardParser", Port := 12003 }).2.1 (by decide)

/-! ## C2: what IsValid checks -/

/-- **C2** counterexample: a config whose ID, Location and BrokerURL are
non-empty but whose BrokerType resolves to no known transport is accepted
by `IsValid`, refuting the claimed "if and only if"; the unknown
BrokerType is instead caught later, by the `GetBroker` nil-check in
`rootHandler`. -/
theorem c2_counterexample :
    bogusBrokerConfig.IsValid = none
    ∧ knownBrokerType bogusBrokerConfig.BrokerType = false
    ∧ (rootHandler bogusBrokerConfig []).1 = StartupOutcome.fatalNoBroker := by
  decide

/-- **C2** amended: `IsValid` returns ok if and only if ID, Location and
BrokerURL are all non-empty; it does not inspect BrokerType.  An error
from `IsValid` is fatal at startup (`rootHandler` stops with
`fatalInvalidConfig`); BrokerType resolution is enforced separately by the
`GetBroker` nil-check. -/
theorem c2_isValid_characterization (cfg : MinionConfig) :
    (cfg.IsValid = none ↔ (cfg.ID ≠ "" ∧ cfg.Location ≠ "" ∧ cfg.BrokerURL ≠ ""))
    ∧ (∀ flags e, cfg.IsValid = some e →
        (rootHandler cfg flags).1 = StartupOutcome.fatalInvalidConfig e) := by
  constructor
  · by_cases h1 : cfg.ID = "" <;> by_cases h2 : cfg.Location = "" <;>
      by_cases h3 : cfg.BrokerURL = "" <;> simp [MinionConfig.IsValid, h1, h2, h3]
  · intro flags e he
    simp [rootHandler, he]

/-- C2 witness: an empty Minion ID is fatal at startup. -/
theorem c2_witness :
    (rootHandler
      { ID := "", Location := "Test", BrokerURL := "10.0.0.100:8990", BrokerType := "grpc",
        BrokerProperties := [], TrapPort := 1162, SyslogPort := 1514, NxosGrpcPort := 0,
        Listeners := [] } []).1
      = StartupOutcome.fatalInvalidConfig "Minion ID required" :=
  (c2_isValid_characterization
    { ID := "", Location := "Test", BrokerURL := "10.0.0.100:8990", BrokerType := "grpc",
      BrokerProperties := [], TrapPort := 1162, SyslogPort := 1514, NxosGrpcPort := 0,
      Listeners := [] }).2 [] "Minion ID required" rfl

/-! ## C8: listener flag parsing -/

/-- **C8**: `ParseListeners` appends every well-formed `Name,Port,Parser`
entry to the config's Listeners; an entry is rejected exactly when it has
fewer than three comma-separated fields; rejection is per-entry (the
overall error is `nil`, so the well-formed entries are still added), and
`rootHandler` never aborts startup over listener flags. -/
theorem c8_parseListeners_characterization (cfg : MinionConfig) (entries : List String) :
    (cfg.ParseListeners entries).1.Listeners
        = cfg.Listeners ++ entries.filterMap parseListenerEntry
    ∧ (cfg.ParseListeners entries).2.2 = none
    ∧ (∀ entry, parseListenerEntry entry = none
        ↔ (splitOnChar ',' entry.toList).length < 3)
    ∧ (∀ flags e, (rootHandler cfg flags).1 ≠ StartupOutcome.fatalInvalidListeners e) := by
  refine ⟨rfl, rfl, ?_, ?_⟩
  · intro entry
    by_cases h : (splitOnChar ',' entry.toList).length < 3 <;>
      simp [parseListenerEntry, h]
  · intro flags e
    unfold rootHandler
    cases hv : cfg.IsValid with
    | some msg => simp
    | none =>
      simp only [MinionConfig.ParseListeners]
      split <;> simp

/-- C8 witness (test scenario 2): the two malformed entries are rejected,
the two well-formed ones are appended to the two configured listeners. -/
theorem c8_witness :
    parseListenerEntry "Wrong1,1000" = none
    ∧ (testConfig.ParseListeners testListenerFlags).1.Listeners.length = 4 :=
  ⟨((c8_parseListeners_characterization testConfig testListenerFlags).2.2.1
      "Wrong1,1000").mpr (by decide),
   by decide⟩

/-! ## C9: NX-OS module with no matching listener -/

/-- **C9**: when the configuration contains no listener whose parser
matches the NX-OS module (or the matching listener's port is 0),
`NxosGrpcModule.Start` logs the disabled warning, starts no server, and
returns `nil`, so the module stays idle and the agent keeps running. -/
theorem c9_nxos_start_idle (cfg : MinionConfig) (listenResult : Except String Unit)
    (h : Option.all (fun listener => listener.Port == 0)
          (cfg.GetListenerByParser "NxosGrpcParser") = true) :
    NxosGrpcModule.Start cfg listenResult
      = { warnedDisabled := true, serverStarted := false, result := none } := by
  unfold NxosGrpcModule.Start
  cases hm : cfg.GetListenerByParser "NxosGrpcParser" with
  | none => rfl
  | some listener =>
    rw [hm] at h
    have hp : listener.Port = 0 := by simpa [Option.all] using h
    simp [hp]

/-- C9 witness: a config whose NXOS listener has port 0 leaves the module
idle with a `nil` Start result. -/
theorem c9_witness :
    NxosGrpcModule.Start nxosPortZeroConfig (Except.ok ())
      = { warnedDisabled := true, serverStarted := false, result := none } :=
  c9_nxos_start_idle nxosPortZeroConfig (Except.ok ()) (by decide)

/-! ## Counting lemmas and sendResponse helpers -/

theorem countEvents_cons (p : Event → Bool) (e : Event) (t : List Event) :
    countEvents p (e :: t) = (if p e then 1 else 0) + countEvents p t := by
  by_cases h : p e <;> simp [countEvents, List.filter_cons, h, Nat.add_comm]

/-- Every branch of `sendResponse` begins by entering the function. -/
theorem sendResponse_head (env : RpcSendEnv) (response : RpcResponseProto) :
    ∃ tail, (sendResponse env response).1 = Event.sendResponseCalled response :: tail := by
  unfold sendResponse
  by_cases h : env.hasRpcStream = true ∧ env.connReady = true
  · rw [if_pos h]
    cases henv : env.rpcSendErr <;> exact ⟨_, rfl⟩
  · rw [if_neg h]
    exact ⟨_, rfl⟩

/-- `sendResponse` touches only the `rpc_res_sent` counters: it never
increments a processed counter, never invokes a module, and never closes
the connection. -/
theorem sendResponse_counters (env : RpcSendEnv) (response : RpcResponseProto) :
    countEvents isProcSucceeded (sendResponse env response).1 = 0
    ∧ countEvents isProcFailed (sendResponse env response).1 = 0
    ∧ countEvents isExecuteInvoked (sendResponse env response).1 = 0
    ∧ countEvents isSinkFailed (sendResponse env response).1 = 0
    ∧ countEvents isRecvFailed (sendResponse env response).1 = 0 := by
  unfold sendResponse
  by_cases h : env.hasRpcStream = true ∧ env.connReady = true
  · rw [if_pos h]
    cases henv : env.rpcSendErr <;> exact ⟨rfl, rfl, rfl, rfl, rfl⟩
  · rw [if_neg h]
    exact ⟨rfl, rfl, rfl, rfl, rfl⟩

/-! ## C4: processRequest dispatch -/

/-- **C4**: for every received request, `processRequest` looks the module
up by ModuleId.  No module: the request is logged and dropped, nothing
else happens.  `Execute` returns nil: no response is sent and the
processed-failed counter is incremented once.  `Execute` returns non-nil:
`sendResponse` is called with that response and the processed-succeeded
counter is incremented once. -/
theorem c4_processRequest_dispatch (registry : RPCRegistry) (env : RpcSendEnv)
    (request : RpcRequestProto) :
    (registry request.ModuleId = none →
       processRequest registry env request
         = [Event.logRequestReceived request.RpcId request.ModuleId request.Location,
            Event.logNoModule request.ModuleId request.RpcId])
    ∧ (∀ module, registry request.ModuleId = some module →
        module.Execute request = none →
        processRequest registry env request
          = [Event.logRequestReceived request.RpcId request.ModuleId request.Location,
             Event.executeInvoked request.ModuleId request.RpcId,
             Event.incProcFailed request.SystemId request.ModuleId])
    ∧ (∀ module response, registry request.ModuleId = some module →
        module.Execute request = some response →
        processRequest registry env request
          = Event.logRequestReceived request.RpcId request.ModuleId request.Location
            :: Event.executeInvoked request.ModuleId request.RpcId
            :: Event.incProcSucceeded request.SystemId request.ModuleId
            :: (sendResponse env response).1
        ∧ countEvents isProcSucceeded (processRequest registry env request) = 1
        ∧ Event.sendResponseCalled response ∈ processRequest registry env request) := by
  refine ⟨?_, ?_, ?_⟩
  · intro h
    simp [processRequest, h]
  · intro module hm he
    simp [processRequest, hm, he]
  · intro module response hm he
    have htr : processRequest registry env request
        = Event.logRequestReceived request.RpcId request.ModuleId request.Location
          :: Event.executeInvoked request.ModuleId request.RpcId
          :: Event.incProcSucceeded request.SystemId request.ModuleId
          :: (sendResponse env response).1 := by
      simp [processRequest, hm, he]
    refine ⟨htr, ?_, ?_⟩
    · rw [htr, countEvents_cons, countEvents_cons, countEvents_cons,
        (sendResponse_counters env response).1]
      rfl
    · rw [htr]
      obtain ⟨tail, htail⟩ := sendResponse_head env response
      rw [htail]
      simp

/-- C4 witness: the Echo module processes a request; the processed-succeeded
counter is incremented once and `sendResponse` receives the echoed
response. -/
theorem c4_witness :
    countEvents isProcSucceeded (processRequest echoRegistry readyRpcEnv expiredRequest) = 1
    ∧ Event.sendResponseCalled expiredEchoResponse
        ∈ processRequest echoRegistry readyRpcEnv expiredRequest :=
  ⟨((c4_processRequest_dispatch echoRegistry readyRpcEnv expiredRequest).2.2
      echoModule expiredEchoResponse rfl rfl).2.1,
   ((c4_processRequest_dispatch echoRegistry readyRpcEnv expiredRequest).2.2
      echoModule expiredEchoResponse rfl rfl).2.2⟩

/-! ## C1: no expiration check in the broker -/

/-- **C1** counterexample: a request whose Expiration deadline (epoch ms
1000) has long passed at a receive time of epoch ms 10000 is *not*
dropped by the broker: the matching module's `Execute` is invoked, the
response is sent on the RPC stream, and no failure counter is
incremented — refuting dropped-without-response, Execute-not-invoked and
failure-counter-incremented alike. -/
theorem c1_counterexample :
    expiredRequest.ExpirationTime < 10000
    ∧ countEvents isExecuteInvoked
        (processRequest echoRegistry readyRpcEnv expiredRequest) = 1
    ∧ Event.streamSendRpc expiredEchoResponse
        ∈ processRequest echoRegistry readyRpcEnv expiredRequest
    ∧ countEvents isFailureCounter
        (processRequest echoRegistry readyRpcEnv expiredRequest) = 0 := by
  decide

/-- **C1** amended: the broker performs no expiration check.  For every
received request whose ModuleId is registered — expired or not —
`processRequest` invokes the module's `Execute` exactly once, and handles
the result exactly as for any other request. -/
theorem c1_no_expiration_check (registry : RPCRegistry) (env : RpcSendEnv)
    (request : RpcRequestProto) (module : RPCModule)
    (h : registry request.ModuleId = some module) :
    countEvents isExecuteInvoked (processRequest registry env request) = 1 := by
  cases he : module.Execute request with
  | none => simp [processRequest, h, he, countEvents, List.filter, isExecuteInvoked]
  | some response =>
    simp [processRequest, h, he, countEvents_cons, isExecuteInvoked,
      (sendResponse_counters env response).2.2.1]

/-- C1 witness: `Execute` is invoked even for the long-expired request. -/
theorem c1_witness :
    expiredRequest.ExpirationTime < 10000
    ∧ countEvents isExecuteInvoked
        (processRequest echoRegistry readyRpcEnv expiredRequest) = 1 :=
  ⟨by decide, c1_no_expiration_check echoRegistry readyRpcEnv expiredRequest echoModule rfl⟩

/-! ## C3: Send delivery counters -/

/-- **C3** counterexample: a `Send` call whose Sink-stream
re-initialization fails returns a non-nil error yet increments neither
the failed nor the succeeded delivery counter, refuting "every call that
returns a non-nil error increments sink_msg_delivery_failed exactly
once". -/
theorem c3_counterexample :
    (GrpcClient.Send sinkInitFailEnv sampleSinkMessage).2
        = some "cannot initialize Sink API Stream: dial refused"
    ∧ countEvents isSinkFailed (GrpcClient.Send sinkInitFailEnv sampleSinkMessage).1 = 0
    ∧ countEvents isSinkSucceeded (GrpcClient.Send sinkInitFailEnv sampleSinkMessage).1 = 0 := by
  decide

/-- **C3** amended: a `Send` call returning nil increments the succeeded
counter exactly once and the failed counter not at all; a failing call
that did reach the stream send increments the failed counter exactly once
and the succeeded counter not at all; a failing call that never reached
the stream send (failed re-initialization) increments neither; and no
`Send` call tears down the broker session (no connection close, no stream
half-close towards the RPC side, no module stop). -/
theorem c3_send_counters (env : SendEnv) (msg : SinkMessage) :
    ((GrpcClient.Send env msg).2 = none →
        countEvents isSinkSucceeded (GrpcClient.Send env msg).1 = 1
        ∧ countEvents isSinkFailed (GrpcClient.Send env msg).1 = 0)
    ∧ (Event.streamSendSink msg ∈ (GrpcClient.Send env msg).1 →
        (GrpcClient.Send env msg).2 ≠ none →
        countEvents isSinkFailed (GrpcClient.Send env msg).1 = 1
        ∧ countEvents isSinkSucceeded (GrpcClient.Send env msg).1 = 0)
    ∧ (Event.streamSendSink msg ∉ (GrpcClient.Send env msg).1 →
        countEvents isSinkFailed (GrpcClient.Send env msg).1 = 0
        ∧ countEvents isSinkSucceeded (GrpcClient.Send env msg).1 = 0)
    ∧ Event.connClosed ∉ (GrpcClient.Send env msg).1
    ∧ Event.closeSendRpc ∉ (GrpcClient.Send env msg).1
    ∧ Event.stopModules ∉ (GrpcClient.Send env msg).1 := by
  obtain ⟨hs, cr, sr, se⟩ := env
  cases hs <;> cases cr <;> rcases sr with e | u <;>
    rcases se with _ | (_ | e2) <;>
    simp [GrpcClient.Send, initSinkStream, sendOnStream, countEvents, List.filter,
      isSinkSucceeded, isSinkFailed]

/-- C3 witness: a healthy `Send` returns nil and bumps the succeeded
counter exactly once. -/
theorem c3_witness :
    countEvents isSinkSucceeded (GrpcClient.Send readySinkEnv sampleSinkMessage).1 = 1
    ∧ countEvents isSinkFailed (GrpcClient.Send readySinkEnv sampleSinkMessage).1 = 0 :=
  (c3_send_counters readySinkEnv sampleSinkMessage).1 rfl

/-! ## C6: at most one re-initialization per Send -/

/-- **C6**: a `Send` call attempts at most one Sink-stream
re-initialization; when the stream is absent or the connection not Ready
and the re-initialization fails, `Send` returns that error and the
message is never sent on the stream; otherwise the message is sent with
the lock/send/unlock of the Sink-stream mutex around it. -/
theorem c6_send_single_reinit (env : SendEnv) (msg : SinkMessage) :
    countEvents isInitSinkAttempt (GrpcClient.Send env msg).1 ≤ 1
    ∧ ((env.hasSinkStream = false ∨ env.connReady = false) →
        ∀ e, env.sinkStreamingResult = Except.error e →
          (GrpcClient.Send env msg).2 = some ("cannot initialize Sink API Stream: " ++ e)
          ∧ Event.streamSendSink msg ∉ (GrpcClient.Send env msg).1)
    ∧ (((env.hasSinkStream = false ∨ env.connReady = false) →
          env.sinkStreamingResult = Except.ok ()) →
        ∃ pre tail, (GrpcClient.Send env msg).1
          = pre ++ Event.lockSink :: Event.streamSendSink msg :: Event.unlockSink :: tail) := by
  obtain ⟨hs, cr, sr, se⟩ := env
  cases hs <;> cases cr <;> rcases sr with e | u <;>
    rcases se with _ | (_ | e2) <;>
    refine ⟨by simp [GrpcClient.Send, initSinkStream, sendOnStream, countEvents, List.filter,
        isInitSinkAttempt], ?_, ?_⟩ <;>
    simp [GrpcClient.Send, initSinkStream, sendOnStream] <;>
    first
      | exact ⟨[Event.initSinkAttempt, Event.lockSink, Event.closeSendSink,
          Event.sinkStreamingCall, Event.unlockSink, Event.logWarnSinkRestarted], _, rfl⟩
      | exact ⟨[Event.initSinkAttempt, Event.lockSink,
          Event.sinkStreamingCall, Event.unlockSink, Event.logWarnSinkRestarted], _, rfl⟩
      | exact ⟨[], _, rfl⟩

/-- C6 witness: with the stream absent and re-initialization failing,
`Send` returns the initialization error and the message never reaches the
stream; a single re-init attempt is made. -/
theorem c6_witness :
    countEvents isInitSinkAttempt (GrpcClient.Send sinkInitFailEnv sampleSinkMessage).1 ≤ 1
    ∧ (GrpcClient.Send sinkInitFailEnv sampleSinkMessage).2
        = some "cannot initialize Sink API Stream: dial refused"
    ∧ Event.streamSendSink sampleSinkMessage
        ∉ (GrpcClient.Send sinkInitFailEnv sampleSinkMessage).1 :=
  ⟨(c6_send_single_reinit sinkInitFailEnv sampleSinkMessage).1,
   ((c6_send_single_reinit sinkInitFailEnv sampleSinkMessage).2.1
      (Or.inl rfl) "dial refused" rfl).1,
   ((c6_send_single_reinit sinkInitFailEnv sampleSinkMessage).2.1
      (Or.inl rfl) "dial refused" rfl).2⟩

/-! ## C5: Minion header precedes request processing -/

/-- The goroutine spawned by `initRPCStream` sends the Minion header (its
trace position 2) before any request-processing event. -/
theorem rpcHandlerGo_headerFirst (cfg : MinionConfig) (registry : RPCRegistry)
    (env : RpcSendEnv) (headerSendErr : Option String) (steps : List LoopStep) :
    headerFirst cfg (rpcHandlerGo cfg registry env headerSendErr steps) := by
  intro j rpcId moduleId location hj
  refine ⟨2, ?_, rfl⟩
  match j with
  | 0 => exact absurd hj (by simp [rpcHandlerGo, sendMinionHeaders])
  | 1 => exact absurd hj (by simp [rpcHandlerGo, sendMinionHeaders])
  | 2 => exact absurd hj (by simp [rpcHandlerGo, sendMinionHeaders])
  | n + 3 => omega

/-- Prefixing a trace with events that are not request-processing events
preserves the header-before-processing property. -/
theorem headerFirst_append (cfg : MinionConfig) (pre t : List Event)
    (hpre : ∀ e ∈ pre, isLogRequestReceived e = false)
    (ht : headerFirst cfg t) : headerFirst cfg (pre ++ t) := by
  intro j rpcId moduleId location hj
  by_cases hlt : j < pre.length
  · exfalso
    have hj2 : pre.get? j = some (Event.logRequestReceived rpcId moduleId location) := by
      rw [← List.get?_append hlt]
      exact hj
    have hmem := List.get?_mem hj2
    simpa [isLogRequestReceived] using hpre _ hmem
  · have hle : pre.length ≤ j := Nat.le_of_not_lt hlt
    have hj2 : t.get? (j - pre.length)
        = some (Event.logRequestReceived rpcId moduleId location) := by
      rw [← List.get?_append_right hle]
      exact hj
    obtain ⟨i, hij, hi⟩ := ht (j - pre.length) rpcId moduleId location hj2
    refine ⟨pre.length + i, by omega, ?_⟩
    rw [List.get?_append_right (by omega)]
    simpa [Nat.add_sub_cancel_left] using hi

/-- **C5**: on every initialization or re-initialization of the RPC stream
— the supervisor-driven restarts included — the Minion header carrying
the agent's SystemId and Location (and an empty RpcId) is sent on the new
stream before any RPC request is received and processed on that stream. -/
theorem c5_header_before_processing (cfg : MinionConfig) (registry : RPCRegistry)
    (env : RpcSendEnv) (headerSendErr : Option String) (steps : List LoopStep)
    (failedAttempts : Nat) :
    headerFirst cfg (rpcHandlerGo cfg registry env headerSendErr steps)
    ∧ headerFirst cfg
        (rpcSupervisorRestart cfg registry env failedAttempts headerSendErr steps)
    ∧ cfg.GetHeaderResponse.RpcId = ""
    ∧ cfg.GetHeaderResponse.SystemId = cfg.ID
    ∧ cfg.GetHeaderResponse.Location = cfg.Location := by
  refine ⟨rpcHandlerGo_headerFirst cfg registry env headerSendErr steps, ?_, rfl, rfl, rfl⟩
  have hform : rpcSupervisorRestart cfg registry env failedAttempts headerSendErr steps
      = (List.replicate failedAttempts Event.sleepOneSecond ++ [Event.logRpcRestarted])
        ++ rpcHandlerGo cfg registry env headerSendErr steps := by
    simp [rpcSupervisorRestart]
  rw [hform]
  refine headerFirst_append cfg _ _ ?_
    (rpcHandlerGo_headerFirst cfg registry env headerSendErr steps)
  intro e he
  rcases List.mem_append.mp he with hrep | hone
  · rw [List.eq_of_mem_replicate hrep]
    rfl
  · rw [List.mem_singleton.mp hone]
    rfl

/-- C5 witness: in a restarted handler that processes one request, a header
send precedes the request-processing event sitting at position 5. -/
theorem c5_witness :
    ∃ i, i < 5
      ∧ (rpcSupervisorRestart testConfig echoRegistry readyRpcEnv 0 none
          [{ streamReady := true, recv := RecvResult.ok expiredRequest }]).get? i
        = some (Event.streamSendRpc testConfig.GetHeaderResponse) :=
  (c5_header_before_processing testConfig echoRegistry readyRpcEnv none
    [{ streamReady := true, recv := RecvResult.ok expiredRequest }] 0).2.1
    5 "r1" "Echo" "Test" (by decide)

/-! ## C10: the receive-loop error branch reads a nil request -/

/-- **C10** is refuted: when `rpcStream.Recv()` fails with a non-EOF error,
the generated gRPC stub has returned a `nil` request, and the error
branch's counter increment reads `request.SystemId` / `request.ModuleId`
through that nil pointer — a runtime panic (`nilFieldRead`); the
received-failed counter is never incremented with any labels.  The trace
below is the loop's behaviour on one non-EOF, non-Unavailable receive
error. -/
theorem c10_recv_error_nil_request :
    rpcLoop echoRegistry readyRpcEnv
        [{ streamReady := true, recv := RecvResult.err false }]
      = [Event.logRecvError, Event.nilFieldRead]
    ∧ countEvents isRecvFailed
        (rpcLoop echoRegistry readyRpcEnv
          [{ streamReady := true, recv := RecvResult.err false }]) = 0
    ∧ countEvents isRecvFailed
        (rpcLoop echoRegistry readyRpcEnv
          [{ streamReady := true, recv := RecvResult.err true }]) = 0 := by
  exact ⟨rfl, rfl, rfl⟩
